import Mathlib

/-
  Verification development for the ASCII supernova simulation
  (src/supernova.c).  The C program is shallowly embedded: C float
  arithmetic is modelled by exact rational arithmetic, the library
  functions sin, cos and the pseudo random stream rand() are modelled by
  an explicit environment of abstract functions, and the per-cell test
  sqrt(q) <= r of the renderer is translated to its exact real
  semantics 0 <= r AND q <= r^2 (justified below against Real.sqrt).
-/

namespace Supernova

/-- Evolutionary stage of the star, the five C macros GIANT .. NEBULA. -/
inductive Stage
  | GIANT
  | COLLAPSE
  | BOUNCE
  | EXPLOSION
  | NEBULA
deriving DecidableEq

/-- One ejecta particle, struct Particle of the C source. -/
structure Particle where
  x : ℚ
  y : ℚ
  vx : ℚ
  vy : ℚ
  life : ℚ
deriving DecidableEq

/-- The full simulation state, struct Star of the C source.  The C array
particles[MAX_PARTICLES] is modelled as a total function from indices;
only indices below MAX_PARTICLES are ever written or read. -/
@[ext]
structure Star where
  radius : ℚ
  core_radius : ℚ
  explosion_radius : ℚ
  velocity : ℚ
  time : ℚ
  density : ℚ
  state : Stage
  particles : ℕ → Particle
  particle_count : ℕ

/-- Environment of external functions used by the C code: sin and cos
from math.h (abstract rational approximations), the constant M_PI, the
rand() stream consumed by spawn_particles (indexed by call number inside
one spawn event), and the rand() draw made by draw_star in the NEBULA
branch for a given cell. -/
structure Env where
  sinF : ℚ → ℚ
  cosF : ℚ → ℚ
  piQ : ℚ
  rand : ℕ → ℕ
  nebRand : ℕ → ℕ → ℕ

def WIDTH : ℕ := 90

def HEIGHT : ℕ := 32

def FPS : ℕ := 30

def MAX_PARTICLES : ℕ := 450

def RAND_MAX : ℕ := 2147483647

/-- Function clamp of the C source (unused by the update loop). -/
def clamp (v a b : ℚ) : ℚ :=
  if v < a then a else if v > b then b else v

/-- Function spawn_particles of the C source.  Particle i consumes the
rand() draws 3*i (angle), 3*i+1 (speed) and 3*i+2 (lifetime), in the
order the C loop makes them. -/
def spawn_particles (env : Env) (s : Star) : Star :=
  { s with
    particle_count := MAX_PARTICLES
    particles := fun i =>
      if i < MAX_PARTICLES then
        let angle : ℚ := ((env.rand (3 * i) : ℚ) / (RAND_MAX : ℚ)) * 2 * env.piQ
        let speed : ℚ := 10 + ((env.rand (3 * i + 1) % 40 : ℕ) : ℚ)
        { x := (WIDTH : ℚ) / 2
          y := (HEIGHT : ℚ) / 2
          vx := env.cosF angle * speed
          vy := env.sinF angle * speed * 0.55
          life := 2.5 + ((env.rand (3 * i + 2) : ℚ) / (RAND_MAX : ℚ)) * 1.5 }
      else s.particles i }

/-- Function update_particles of the C source: a particle with
life <= 0 is skipped entirely (the C continue), a live particle is
moved by velocity * dt and its life is decremented by dt. -/
def update_particles (s : Star) (dt : ℚ) : Star :=
  { s with
    particles := fun i =>
      let p := s.particles i
      if i < s.particle_count ∧ 0 < p.life then
        { p with x := p.x + p.vx * dt, y := p.y + p.vy * dt, life := p.life - dt }
      else p }

/-- Function update_star of the C source: time += dt first, then one
branch on the current stage. -/
def update_star (env : Env) (s : Star) (dt : ℚ) : Star :=
  let s0 := { s with time := s.time + dt }
  match s0.state with
  | .GIANT =>
      let s1 := { s0 with radius := 9 + env.sinF (s0.time * 3) * 1.5 }
      if s1.time > 5 then
        { s1 with state := .COLLAPSE, time := 0, velocity := 0 }
      else s1
  | .COLLAPSE =>
      let s1 := { s0 with velocity := s0.velocity + 40 * dt }
      let s2 := { s1 with radius := s1.radius - s1.velocity * dt }
      if s2.radius < 3 then
        { s2 with state := .BOUNCE, time := 0, core_radius := 2 }
      else s2
  | .BOUNCE =>
      let s1 := { s0 with radius := s0.radius + 25 * dt }
      if s1.time > 0.8 then
        spawn_particles env { s1 with state := .EXPLOSION, time := 0, explosion_radius := 3 }
      else s1
  | .EXPLOSION =>
      let s1 := { s0 with explosion_radius := s0.explosion_radius + 30 * dt }
      let s2 := update_particles s1 dt
      if s2.explosion_radius > 32 then
        { s2 with state := .NEBULA, time := 0 }
      else s2
  | .NEBULA =>
      let s1 := { s0 with explosion_radius := s0.explosion_radius + 6 * dt }
      let s2 := update_particles s1 dt
      if s2.explosion_radius > 42 then
        { s2 with state := .GIANT, time := 0, radius := 9 }
      else s2

/-- The anisotropic squared distance used by draw_star: the vertical
offset is scaled by 1.5 before squaring (dy = (y-cy)*1.5 and then
d = sqrt(dx*dx + dy*dy) in the C source). -/
def metricSq (dx dy : ℚ) : ℚ :=
  dx * dx + (dy * 1.5) * (dy * 1.5)

/-- Squared anisotropic distance of cell (x, y) from the grid center. -/
def cellDsq (x y : ℕ) : ℚ :=
  metricSq ((x : ℚ) - (WIDTH : ℚ) / 2) ((y : ℚ) - (HEIGHT : ℚ) / 2)

/-- Exact translation of the C comparison sqrt(q) <= r, for q the
squared distance (so 0 <= q): over the reals it holds iff 0 <= r and
q <= r^2.  Proved against Real.sqrt in lemma sqrtLeB_correct. -/
def sqrtLeB (q r : ℚ) : Bool :=
  decide (0 ≤ r) && decide (q ≤ r * r)

/-- Exact translation of the C comparison sqrt(q) >= r, for q the
squared distance: over the reals it holds iff r <= 0 or r^2 <= q.
Proved against Real.sqrt in lemma sqrtGeB_correct. -/
def sqrtGeB (q r : ℚ) : Bool :=
  decide (r ≤ 0) || decide (r * r ≤ q)

/-- C cast (int)q: truncation toward zero. -/
def truncQ (q : ℚ) : ℤ :=
  if q < 0 then ⌈q⌉ else ⌊q⌋

/-- Layer 1 of draw_star: the per-stage envelope / shock / dust symbol
for a cell, or a blank. -/
def baseLayer (env : Env) (s : Star) (x y : ℕ) : Char :=
  match s.state with
  | .GIANT => if sqrtLeB (cellDsq x y) s.radius then '#' else ' '
  | .COLLAPSE => if sqrtLeB (cellDsq x y) s.radius then '@' else ' '
  | .BOUNCE =>
      if sqrtLeB (cellDsq x y) s.radius && sqrtGeB (cellDsq x y) (s.radius - 1.5) then '*' else ' '
  | .EXPLOSION =>
      if sqrtLeB (cellDsq x y) s.explosion_radius
          && sqrtGeB (cellDsq x y) (s.explosion_radius - 1.6) then '*' else ' '
  | .NEBULA =>
      if sqrtLeB (cellDsq x y) s.explosion_radius && (env.nebRand x y % 12 == 0) then '.' else ' '

/-- Layer 2 of draw_star: the remnant core overrides the base layer. -/
def coreLayer (s : Star) (x y : ℕ) (c : Char) : Char :=
  if sqrtLeB (cellDsq x y) s.core_radius then 'O' else c

/-- The test of the particle loop of draw_star for particle i at cell
(x, y): truncated position matches and the particle is alive. -/
def particleHit (s : Star) (i x y : ℕ) : Bool :=
  (truncQ (s.particles i).x == (x : ℤ)) && (truncQ (s.particles i).y == (y : ℤ))
    && decide (0 < (s.particles i).life)

/-- The symbol draw_star prints for cell (x, y): base layer, overridden
by the core layer, overridden by the particle layer (the loop writes a
plus sign for every matching particle, so the result is a plus sign iff
some particle below particle_count matches). -/
def draw_pixel (env : Env) (s : Star) (x y : ℕ) : Char :=
  if (List.range s.particle_count).any (fun i => particleHit s i x y) then '+'
  else coreLayer s x y (baseLayer env s x y)

/-- The initial Star built in main; the C code leaves density and the
particle array uninitialized, so they are parameters. -/
def initStar (d0 : ℚ) (p0 : ℕ → Particle) : Star :=
  { radius := 9
    core_radius := 0
    explosion_radius := 0
    velocity := 0
    time := 0
    density := d0
    state := .GIANT
    particles := p0
    particle_count := 0 }

/-- n iterations of update_star with a fixed dt, as driven by main. -/
def ticks (env : Env) (dt : ℚ) : ℕ → Star → Star
  | 0, s => s
  | n + 1, s => ticks env dt n (update_star env s dt)

/-- The successor of each stage in the intended cycle. -/
def nextStage : Stage → Stage
  | .GIANT => .COLLAPSE
  | .COLLAPSE => .BOUNCE
  | .BOUNCE => .EXPLOSION
  | .EXPLOSION => .NEBULA
  | .NEBULA => .GIANT

/-- Spec table of section 4.1, written directly from the rows of the
spec: time += dt first, then one row selected by the current stage;
each row applies its per-tick update, tests its transition condition on
the updated fields, and applies its transition action. -/
def advanceSpecTable (env : Env) (s : Star) (dt : ℚ) : Star :=
  let t := s.time + dt
  match s.state with
  | .GIANT =>
      let r := 9 + env.sinF (t * 3) * 1.5
      if t > 5 then { s with radius := r, state := .COLLAPSE, time := 0, velocity := 0 }
      else { s with radius := r, time := t }
  | .COLLAPSE =>
      let v := s.velocity + 40 * dt
      let r := s.radius - v * dt
      if r < 3 then
        { s with velocity := v, radius := r, state := .BOUNCE, time := 0, core_radius := 2 }
      else { s with velocity := v, radius := r, time := t }
  | .BOUNCE =>
      let r := s.radius + 25 * dt
      if t > 0.8 then
        spawn_particles env
          { s with radius := r, state := .EXPLOSION, time := 0, explosion_radius := 3 }
      else { s with radius := r, time := t }
  | .EXPLOSION =>
      let s1 := update_particles
        { s with explosion_radius := s.explosion_radius + 30 * dt, time := t } dt
      if s1.explosion_radius > 32 then { s1 with state := .NEBULA, time := 0 } else s1
  | .NEBULA =>
      let s1 := update_particles
        { s with explosion_radius := s.explosion_radius + 6 * dt, time := t } dt
      if s1.explosion_radius > 42 then { s1 with state := .GIANT, time := 0, radius := 9 } else s1

/-- A concrete environment for witnesses: sin and cos constantly 0,
every rand draw 0. -/
def envZ : Env :=
  { sinF := fun _ => 0
    cosF := fun _ => 0
    piQ := 3
    rand := fun _ => 0
    nebRand := fun _ _ => 0 }

/-- A concrete environment whose rand stream always returns RAND_MAX. -/
def envMax : Env :=
  { envZ with rand := fun _ => RAND_MAX }

/-- A concrete inert particle for initial arrays. -/
def partZ : Particle := { x := 0, y := 0, vx := 0, vy := 0, life := 0 }

/-- The concrete initial state of main, with the uninitialized fields
fixed to zero values. -/
def initZ : Star := initStar 0 (fun _ => partZ)

/-- A concrete state holding one dead particle (life = 0). -/
def sDead : Star :=
  { radius := 9, core_radius := 0, explosion_radius := 3, velocity := 0,
    time := 0, density := 0, state := .EXPLOSION,
    particles := fun _ => { x := 1, y := 1, vx := 1, vy := 1, life := 0 },
    particle_count := 1 }

/-- A concrete state holding one live particle. -/
def sLive : Star :=
  { radius := 9, core_radius := 0, explosion_radius := 3, velocity := 0,
    time := 0, density := 0, state := .EXPLOSION,
    particles := fun _ => { x := 1, y := 2, vx := 1, vy := 1, life := 2 },
    particle_count := 1 }

/-- A concrete state entering the collapse stage. -/
def sCol : Star :=
  { radius := 9, core_radius := 0, explosion_radius := 0, velocity := 0,
    time := 0, density := 0, state := .COLLAPSE,
    particles := fun _ => partZ, particle_count := 0 }

/-- A concrete explosion state in which the center cell is inside the
core disk, inside the shock band, and holds a live particle. -/
def sC6 : Star :=
  { radius := 9, core_radius := 2, explosion_radius := 1.5, velocity := 0,
    time := 0, density := 0, state := .EXPLOSION,
    particles := fun _ => { x := 45, y := 16, vx := 0, vy := 0, life := 1 },
    particle_count := 1 }

section Helpers

variable (env : Env) (s : Star) (dt : ℚ)

lemma update_particles_apply (i : ℕ) :
    (update_particles s dt).particles i =
      if i < s.particle_count ∧ 0 < (s.particles i).life then
        { s.particles i with
            x := (s.particles i).x + (s.particles i).vx * dt
            y := (s.particles i).y + (s.particles i).vy * dt
            life := (s.particles i).life - dt }
      else s.particles i := rfl

lemma spawn_particles_apply (i : ℕ) :
    (spawn_particles env s).particles i =
      if i < MAX_PARTICLES then
        { x := (WIDTH : ℚ) / 2
          y := (HEIGHT : ℚ) / 2
          vx := env.cosF (((env.rand (3 * i) : ℚ) / (RAND_MAX : ℚ)) * 2 * env.piQ)
                  * (10 + ((env.rand (3 * i + 1) % 40 : ℕ) : ℚ))
          vy := env.sinF (((env.rand (3 * i) : ℚ) / (RAND_MAX : ℚ)) * 2 * env.piQ)
                  * (10 + ((env.rand (3 * i + 1) % 40 : ℕ) : ℚ)) * 0.55
          life := 2.5 + ((env.rand (3 * i + 2) : ℚ) / (RAND_MAX : ℚ)) * 1.5 }
      else s.particles i := rfl

@[simp] lemma update_particles_radius : (update_particles s dt).radius = s.radius := rfl

@[simp] lemma update_particles_core : (update_particles s dt).core_radius = s.core_radius := rfl

@[simp] lemma update_particles_explosion :
    (update_particles s dt).explosion_radius = s.explosion_radius := rfl

@[simp] lemma update_particles_velocity : (update_particles s dt).velocity = s.velocity := rfl

@[simp] lemma update_particles_time : (update_particles s dt).time = s.time := rfl

@[simp] lemma update_particles_state : (update_particles s dt).state = s.state := rfl

@[simp] lemma update_particles_count :
    (update_particles s dt).particle_count = s.particle_count := rfl

@[simp] lemma spawn_particles_radius : (spawn_particles env s).radius = s.radius := rfl

@[simp] lemma spawn_particles_core : (spawn_particles env s).core_radius = s.core_radius := rfl

@[simp] lemma spawn_particles_explosion :
    (spawn_particles env s).explosion_radius = s.explosion_radius := rfl

@[simp] lemma spawn_particles_velocity : (spawn_particles env s).velocity = s.velocity := rfl

@[simp] lemma spawn_particles_time : (spawn_particles env s).time = s.time := rfl

@[simp] lemma spawn_particles_state : (spawn_particles env s).state = s.state := rfl

@[simp] lemma spawn_particles_count :
    (spawn_particles env s).particle_count = MAX_PARTICLES := rfl

lemma update_star_giant (h : s.state = .GIANT) :
    update_star env s dt =
      if s.time + dt > 5 then
        { s with state := .COLLAPSE, time := 0, velocity := 0,
                 radius := 9 + env.sinF ((s.time + dt) * 3) * 1.5 }
      else
        { s with time := s.time + dt,
                 radius := 9 + env.sinF ((s.time + dt) * 3) * 1.5 } := by
  rcases s with ⟨r, cr, er, v, t, d, st, ps, pc⟩
  obtain rfl : st = .GIANT := h
  rfl

lemma update_star_collapse (h : s.state = .COLLAPSE) :
    update_star env s dt =
      if s.radius - (s.velocity + 40 * dt) * dt < 3 then
        { s with state := .BOUNCE, time := 0, core_radius := 2,
                 velocity := s.velocity + 40 * dt,
                 radius := s.radius - (s.velocity + 40 * dt) * dt }
      else
        { s with time := s.time + dt,
                 velocity := s.velocity + 40 * dt,
                 radius := s.radius - (s.velocity + 40 * dt) * dt } := by
  rcases s with ⟨r, cr, er, v, t, d, st, ps, pc⟩
  obtain rfl : st = .COLLAPSE := h
  rfl

lemma update_star_bounce (h : s.state = .BOUNCE) :
    update_star env s dt =
      if s.time + dt > 0.8 then
        spawn_particles env
          { s with state := .EXPLOSION, time := 0, explosion_radius := 3,
                   radius := s.radius + 25 * dt }
      else { s with time := s.time + dt, radius := s.radius + 25 * dt } := by
  rcases s with ⟨r, cr, er, v, t, d, st, ps, pc⟩
  obtain rfl : st = .BOUNCE := h
  rfl

lemma update_star_explosion (h : s.state = .EXPLOSION) :
    update_star env s dt =
      if s.explosion_radius + 30 * dt > 32 then
        { update_particles
            { s with time := s.time + dt,
                     explosion_radius := s.explosion_radius + 30 * dt } dt
          with state := .NEBULA, time := 0 }
      else
        update_particles
          { s with time := s.time + dt,
                   explosion_radius := s.explosion_radius + 30 * dt } dt := by
  rcases s with ⟨r, cr, er, v, t, d, st, ps, pc⟩
  obtain rfl : st = .EXPLOSION := h
  rfl

lemma update_star_nebula (h : s.state = .NEBULA) :
    update_star env s dt =
      if s.explosion_radius + 6 * dt > 42 then
        { update_particles
            { s with time := s.time + dt,
                     explosion_radius := s.explosion_radius + 6 * dt } dt
          with state := .GIANT, time := 0, radius := 9 }
      else
        update_particles
          { s with time := s.time + dt,
                   explosion_radius := s.explosion_radius + 6 * dt } dt := by
  rcases s with ⟨r, cr, er, v, t, d, st, ps, pc⟩
  obtain rfl : st = .NEBULA := h
  rfl

end Helpers

lemma ticks_add (env : Env) (dt : ℚ) (a b : ℕ) (s : Star) :
    ticks env dt (a + b) s = ticks env dt b (ticks env dt a s) := by
  induction a generalizing s with
  | zero => simp [ticks, Nat.zero_add]
  | succ a ih =>
      have hab : a + 1 + b = (a + b) + 1 := by omega
      rw [hab]
      show ticks env dt (a + b) (update_star env s dt) = _
      rw [ih]
      rfl

lemma ticks_succ (env : Env) (dt : ℚ) (n : ℕ) (s : Star) :
    ticks env dt (n + 1) s = update_star env (ticks env dt n s) dt := by
  rw [ticks_add env dt n 1 s]
  rfl

/-- Justification of the sqrtLeB translation: for a nonnegative squared
distance q, the C test sqrt(q) <= r holds over the reals exactly when
sqrtLeB q r. -/
lemma sqrtLeB_correct (q r : ℚ) (hq : 0 ≤ q) :
    sqrtLeB q r = true ↔ Real.sqrt (q : ℝ) ≤ (r : ℝ) := by
  unfold sqrtLeB
  rw [Bool.and_eq_true, decide_eq_true_eq, decide_eq_true_eq]
  constructor
  · rintro ⟨hr, hle⟩
    have : Real.sqrt (q : ℝ) ≤ Real.sqrt ((r : ℝ) * r) := by
      apply Real.sqrt_le_sqrt
      exact_mod_cast hle
    rwa [Real.sqrt_mul_self (by exact_mod_cast hr)] at this
  · intro hle
    have hr : (0 : ℚ) ≤ r := by
      have := le_trans (Real.sqrt_nonneg (q : ℝ)) hle
      exact_mod_cast this
    refine ⟨hr, ?_⟩
    have hq' : (0 : ℝ) ≤ (q : ℝ) := by exact_mod_cast hq
    have h2 : Real.sqrt (q : ℝ) * Real.sqrt (q : ℝ) ≤ (r : ℝ) * (r : ℝ) :=
      mul_le_mul hle hle (Real.sqrt_nonneg _) (le_trans (Real.sqrt_nonneg _) hle)
    rw [Real.mul_self_sqrt hq'] at h2
    exact_mod_cast h2

/-- Justification of the sqrtGeB translation: for a nonnegative squared
distance q, the C test sqrt(q) >= r holds over the reals exactly when
sqrtGeB q r. -/
lemma sqrtGeB_correct (q r : ℚ) (hq : 0 ≤ q) :
    sqrtGeB q r = true ↔ (r : ℝ) ≤ Real.sqrt (q : ℝ) := by
  unfold sqrtGeB
  rw [Bool.or_eq_true, decide_eq_true_eq, decide_eq_true_eq]
  constructor
  · rintro (hr | hle)
    · exact le_trans (by exact_mod_cast hr) (Real.sqrt_nonneg _)
    · have h1 : Real.sqrt ((r : ℝ) * r) ≤ Real.sqrt (q : ℝ) := by
        apply Real.sqrt_le_sqrt
        exact_mod_cast hle
      rcases le_or_lt r 0 with h | h
      · exact le_trans (by exact_mod_cast h) (Real.sqrt_nonneg _)
      · rwa [Real.sqrt_mul_self (le_of_lt (by exact_mod_cast h))] at h1
  · intro hle
    rcases le_or_lt r 0 with h | h
    · exact Or.inl h
    · right
      have hr : (0 : ℝ) ≤ (r : ℝ) := by exact_mod_cast le_of_lt h
      have h2 : (r : ℝ) * r ≤ Real.sqrt (q : ℝ) * Real.sqrt (q : ℝ) :=
        mul_le_mul hle hle hr (Real.sqrt_nonneg _)
      rw [Real.mul_self_sqrt (by exact_mod_cast hq)] at h2
      exact_mod_cast h2

set_option maxRecDepth 1000000

/-- Evaluation of one full cycle of the simulation from the initial
state with dt = 1/30 in the concrete environment envZ: tick 267 is
still NEBULA, tick 268 is the restart tick, and neither core_radius nor
explosion_radius is cleared by the restart. -/
lemma run268 :
    (ticks envZ (1/30) 267 initZ).state = .NEBULA ∧
    (ticks envZ (1/30) 268 initZ).state = .GIANT ∧
    (ticks envZ (1/30) 268 initZ).core_radius = 2 ∧
    (ticks envZ (1/30) 268 initZ).explosion_radius = 211 / 5 ∧
    (ticks envZ (1/30) 268 initZ).radius = 9 ∧
    (ticks envZ (1/30) 268 initZ).time = 0 := by
  with_unfolding_all decide

/-- C1: a tick of update_star adds dt to time first, then takes the
single branch selected by the current stage and applies exactly the
update and transition of the spec table (advanceSpecTable transcribes
the table of spec section 4.1). -/
theorem C1_update_star_matches_table (env : Env) (s : Star) (dt : ℚ) :
    update_star env s dt = advanceSpecTable env s dt := by
  rcases s with ⟨r, cr, er, v, t, d, st, ps, pc⟩
  cases st <;> rfl

/-- C2 counterexample: a particle whose lifetime has reached 0 is left
completely unchanged by update_particles, so its lifetime does not keep
counting down (the claim demands life - dt, here -1). -/
theorem C2_cex :
    (update_particles sDead 1).particles 0 = sDead.particles 0 ∧
    ¬ ((update_particles sDead 1).particles 0).life = (sDead.particles 0).life - 1 := by
  with_unfolding_all decide

lemma update_particles_dead_fixed (dt : ℚ) (i : ℕ) :
    ∀ (n : ℕ) (s : Star), (s.particles i).life ≤ 0 →
      ((fun u => update_particles u dt)^[n] s).particles i = s.particles i := by
  intro n
  induction n with
  | zero => intro s _; rfl
  | succ n ih =>
      intro s hl
      rw [Function.iterate_succ_apply]
      have hfix : (update_particles s dt).particles i = s.particles i := by
        rw [update_particles_apply, if_neg]
        rintro ⟨-, hpos⟩
        exact absurd hpos (not_lt.mpr hl)
      rw [ih (update_particles s dt) (by rw [hfix]; exact hl), hfix]

/-- C2 (amended): a live particle (life > 0) below particle_count is
moved by velocity * dt and its life drops by dt; a dead particle
(life <= 0) is skipped entirely and stays frozen over any number of
further update_particles ticks. -/
theorem C2_update_particles_liveness (s : Star) (dt : ℚ) (i : ℕ)
    (h : i < s.particle_count) :
    (0 < (s.particles i).life →
      (update_particles s dt).particles i =
        { s.particles i with
            x := (s.particles i).x + (s.particles i).vx * dt
            y := (s.particles i).y + (s.particles i).vy * dt
            life := (s.particles i).life - dt }) ∧
    ((s.particles i).life ≤ 0 →
      ∀ n : ℕ, ((fun u => update_particles u dt)^[n] s).particles i = s.particles i) := by
  constructor
  · intro hl
    rw [update_particles_apply, if_pos ⟨h, hl⟩]
  · intro hl n
    exact update_particles_dead_fixed dt i n s hl

/-- C2 witness: the live particle of sLive is integrated one step. -/
theorem C2_witness :
    (update_particles sLive 1).particles 0 = { x := 2, y := 3, vx := 1, vy := 1, life := 1 } := by
  rw [(C2_update_particles_liveness sLive 1 0 (by decide)).1 (by with_unfolding_all decide)]
  with_unfolding_all decide

/-- C3 counterexample: the restart tick of a real run (tick 268 from
the initial state, the NEBULA to GIANT transition) does not clear
core_radius back to 0; it stays at 2. -/
theorem C3_cex :
    (ticks envZ (1/30) 267 initZ).state = .NEBULA ∧
    (ticks envZ (1/30) 268 initZ).state = .GIANT ∧
    (ticks envZ (1/30) 268 initZ).core_radius ≠ 0 := by
  refine ⟨run268.1, run268.2.1, ?_⟩
  rw [run268.2.2.1]
  norm_num

/-- C3 (amended): core_radius is written on exactly one kind of step,
the firing COLLAPSE to BOUNCE transition, where it becomes 2; every
other step, including the NEBULA to GIANT restart, leaves it unchanged
(so it persists across cycles and is never cleared). -/
theorem C3_core_radius_assignment (env : Env) (s : Star) (dt : ℚ) :
    (s.state = .COLLAPSE → s.radius - (s.velocity + 40 * dt) * dt < 3 →
        (update_star env s dt).core_radius = 2) ∧
    (s.state = .COLLAPSE → ¬ (s.radius - (s.velocity + 40 * dt) * dt < 3) →
        (update_star env s dt).core_radius = s.core_radius) ∧
    (s.state ≠ .COLLAPSE → (update_star env s dt).core_radius = s.core_radius) := by
  refine ⟨?_, ?_, ?_⟩
  · intro h hc
    rw [update_star_collapse env s dt h, if_pos hc]
  · intro h hc
    rw [update_star_collapse env s dt h, if_neg hc]
  · intro h
    cases hst : s.state
    case GIANT => rw [update_star_giant env s dt hst]; split_ifs <;> rfl
    case COLLAPSE => exact absurd hst h
    case BOUNCE => rw [update_star_bounce env s dt hst]; split_ifs <;> rfl
    case EXPLOSION => rw [update_star_explosion env s dt hst]; split_ifs <;> rfl
    case NEBULA => rw [update_star_nebula env s dt hst]; split_ifs <;> rfl

/-- C3 witness: a GIANT step keeps core_radius, and a firing collapse
step from sCol with dt = 1 writes core_radius = 2. -/
theorem C3_witness :
    (update_star envZ initZ 1).core_radius = initZ.core_radius ∧
    (update_star envZ sCol 1).core_radius = 2 :=
  ⟨(C3_core_radius_assignment envZ initZ 1).2.2 (by decide),
   (C3_core_radius_assignment envZ sCol 1).1 rfl (by norm_num [sCol])⟩

/-- C5 counterexample: when a rand draw returns RAND_MAX, the spawned
lifetime is exactly 4, outside the half open interval [2.5, 4). -/
theorem C5_cex :
    ((spawn_particles envMax initZ).particles 0).life = 4 ∧
    ¬ ((spawn_particles envMax initZ).particles 0).life < 4 := by
  with_unfolding_all decide

/-- C5 (amended): right after spawn_particles every one of the 450
particles sits at the grid center, has velocity (cos(a)*sp,
sin(a)*sp*0.55) for some angle a in the closed interval [0, 2*pi] and
some integer speed sp in [10, 50), and has lifetime in the closed
interval [2.5, 4]. -/
theorem C5_spawn (env : Env) (s : Star)
    (hr : ∀ k, env.rand k ≤ RAND_MAX) (hpi : 0 < env.piQ)
    (i : ℕ) (hi : i < MAX_PARTICLES) :
    ((spawn_particles env s).particles i).x = (WIDTH : ℚ) / 2 ∧
    ((spawn_particles env s).particles i).y = (HEIGHT : ℚ) / 2 ∧
    (∃ (a : ℚ) (sp : ℕ), 0 ≤ a ∧ a ≤ 2 * env.piQ ∧ 10 ≤ sp ∧ sp < 50 ∧
      ((spawn_particles env s).particles i).vx = env.cosF a * (sp : ℚ) ∧
      ((spawn_particles env s).particles i).vy = env.sinF a * (sp : ℚ) * 0.55) ∧
    2.5 ≤ ((spawn_particles env s).particles i).life ∧
    ((spawn_particles env s).particles i).life ≤ 4 ∧
    (spawn_particles env s).particle_count = MAX_PARTICLES := by
  have hRM : (0 : ℚ) < (RAND_MAX : ℚ) := by norm_num [RAND_MAX]
  have hratio : ∀ k, (0 : ℚ) ≤ (env.rand k : ℚ) / (RAND_MAX : ℚ) ∧
      (env.rand k : ℚ) / (RAND_MAX : ℚ) ≤ 1 := by
    intro k
    constructor
    · exact div_nonneg (by positivity) (le_of_lt hRM)
    · rw [div_le_one hRM]
      exact_mod_cast hr k
  rw [spawn_particles_apply, if_pos hi]
  refine ⟨rfl, rfl, ?_, ?_, ?_, rfl⟩
  · refine ⟨((env.rand (3 * i) : ℚ) / (RAND_MAX : ℚ)) * 2 * env.piQ,
      10 + env.rand (3 * i + 1) % 40, ?_, ?_, ?_, ?_, ?_, ?_⟩
    · have := (hratio (3 * i)).1
      positivity
    · have h1 := (hratio (3 * i)).2
      have h0 := (hratio (3 * i)).1
      nlinarith
    · omega
    · have : env.rand (3 * i + 1) % 40 < 40 := Nat.mod_lt _ (by norm_num)
      omega
    · push_cast
      ring
    · push_cast
      ring
  · have := (hratio (3 * i + 2)).1
    nlinarith
  · have := (hratio (3 * i + 2)).2
    nlinarith

/-- C5 witness: the amended statement at particle 0 in the concrete
environment envZ. -/
theorem C5_witness :
    ((spawn_particles envZ initZ).particles 0).x = (WIDTH : ℚ) / 2 ∧
    2.5 ≤ ((spawn_particles envZ initZ).particles 0).life :=
  ⟨(C5_spawn envZ initZ (fun _ => Nat.zero_le _) (by norm_num [envZ]) 0 (by norm_num [MAX_PARTICLES])).1,
   (C5_spawn envZ initZ (fun _ => Nat.zero_le _) (by norm_num [envZ]) 0 (by norm_num [MAX_PARTICLES])).2.2.2.1⟩

/-- C7: the anisotropic metric of the renderer makes the cell straight
above the center strictly farther than the cell beside the center at
the same offset k, both for the squared metric and for the real
distance. -/
theorem C7_vertical_farther (k : ℚ) (hk : 0 < k) :
    metricSq k 0 < metricSq 0 k ∧
    Real.sqrt ((metricSq k 0 : ℚ) : ℝ) < Real.sqrt ((metricSq 0 k : ℚ) : ℝ) := by
  have h1 : metricSq k 0 < metricSq 0 k := by
    unfold metricSq
    nlinarith
  refine ⟨h1, Real.sqrt_lt_sqrt ?_ ?_⟩
  · have : (0 : ℚ) ≤ metricSq k 0 := by unfold metricSq; nlinarith
    exact_mod_cast this
  · exact_mod_cast h1

/-- C7 witness: the property at k = 1. -/
theorem C7_witness :
    (0 : ℚ) < 1 ∧
    (metricSq 1 0 < metricSq 0 1 ∧
      Real.sqrt ((metricSq 1 0 : ℚ) : ℝ) < Real.sqrt ((metricSq 0 1 : ℚ) : ℝ)) :=
  ⟨by norm_num, C7_vertical_farther 1 (by norm_num)⟩

/-- C8: one COLLAPSE tick with dt > 0 and nonnegative velocity strictly
increases velocity and strictly decreases radius, keeps the velocity
nonnegative (so the property propagates along the whole collapse, which
starts at velocity 0), and stays in COLLAPSE unless the radius < 3
threshold fires. -/
theorem C8_collapse_monotonicity (env : Env) (s : Star) (dt : ℚ)
    (hst : s.state = .COLLAPSE) (hv : 0 ≤ s.velocity) (hdt : 0 < dt) :
    s.velocity < (update_star env s dt).velocity ∧
    (update_star env s dt).radius < s.radius ∧
    0 ≤ (update_star env s dt).velocity ∧
    ((update_star env s dt).state = .COLLAPSE ∨
      ((update_star env s dt).state = .BOUNCE ∧ (update_star env s dt).radius < 3)) := by
  rw [update_star_collapse env s dt hst]
  have hstep : 0 < (s.velocity + 40 * dt) * dt := mul_pos (by linarith) hdt
  split_ifs with hc
  · refine ⟨?_, ?_, ?_, Or.inr ⟨rfl, ?_⟩⟩
    · show s.velocity < s.velocity + 40 * dt
      linarith
    · show s.radius - (s.velocity + 40 * dt) * dt < s.radius
      linarith
    · show 0 ≤ s.velocity + 40 * dt
      linarith
    · exact hc
  · refine ⟨?_, ?_, ?_, Or.inl hst⟩
    · show s.velocity < s.velocity + 40 * dt
      linarith
    · show s.radius - (s.velocity + 40 * dt) * dt < s.radius
      linarith
    · show 0 ≤ s.velocity + 40 * dt
      linarith

/-- C8 witness: one collapse tick from the concrete state sCol. -/
theorem C8_witness :
    sCol.velocity < (update_star envZ sCol (1/30)).velocity ∧
    (update_star envZ sCol (1/30)).radius < sCol.radius := by
  obtain ⟨h1, h2, -, -⟩ :=
    C8_collapse_monotonicity envZ sCol (1/30) rfl (le_refl 0) (by norm_num)
  exact ⟨h1, h2⟩

/-- C4 counterexample: the state reached after 268 ticks of a real run
is in the GIANT stage with a nonzero explosion_radius (the restart does
not clear it). -/
theorem C4_cex :
    (ticks envZ (1/30) 268 initZ).state = .GIANT ∧
    (ticks envZ (1/30) 268 initZ).explosion_radius ≠ 0 := by
  refine ⟨run268.2.1, ?_⟩
  rw [run268.2.2.2.1]
  norm_num

lemma explosion_inv_step (env : Env) (dt : ℚ) (hdt : 0 ≤ dt) (s : Star)
    (h1 : s.particle_count = 0 → s.explosion_radius = 0 ∧
        (s.state = .GIANT ∨ s.state = .COLLAPSE ∨ s.state = .BOUNCE))
    (h2 : s.particle_count ≠ 0 → 3 ≤ s.explosion_radius) :
    ((update_star env s dt).particle_count = 0 → (update_star env s dt).explosion_radius = 0 ∧
        ((update_star env s dt).state = .GIANT ∨ (update_star env s dt).state = .COLLAPSE ∨
          (update_star env s dt).state = .BOUNCE)) ∧
    ((update_star env s dt).particle_count ≠ 0 → 3 ≤ (update_star env s dt).explosion_radius) := by
  cases hst : s.state
  case GIANT =>
    rw [update_star_giant env s dt hst]
    split_ifs
    · exact ⟨fun hc => ⟨(h1 hc).1, Or.inr (Or.inl rfl)⟩, fun hc => h2 hc⟩
    · exact ⟨fun hc => ⟨(h1 hc).1, Or.inl hst⟩, fun hc => h2 hc⟩
  case COLLAPSE =>
    rw [update_star_collapse env s dt hst]
    split_ifs
    · exact ⟨fun hc => ⟨(h1 hc).1, Or.inr (Or.inr rfl)⟩, fun hc => h2 hc⟩
    · exact ⟨fun hc => ⟨(h1 hc).1, Or.inr (Or.inl hst)⟩, fun hc => h2 hc⟩
  case BOUNCE =>
    rw [update_star_bounce env s dt hst]
    split_ifs
    · refine ⟨fun hc => absurd hc ?_, fun _ => ?_⟩
      · show ¬ (MAX_PARTICLES = 0)
        norm_num [MAX_PARTICLES]
      · show (3 : ℚ) ≤ 3
        exact le_refl 3
    · exact ⟨fun hc => ⟨(h1 hc).1, Or.inr (Or.inr hst)⟩, fun hc => h2 hc⟩
  case EXPLOSION =>
    have hcnt : s.particle_count ≠ 0 := by
      intro hc
      have := (h1 hc).2
      rw [hst] at this
      rcases this with h | h | h <;> cases h
    have hge : 3 ≤ s.explosion_radius + 30 * dt := by
      have := h2 hcnt
      linarith
    rw [update_star_explosion env s dt hst]
    split_ifs
    · exact ⟨fun hc => absurd hc hcnt, fun _ => hge⟩
    · exact ⟨fun hc => absurd hc hcnt, fun _ => hge⟩
  case NEBULA =>
    have hcnt : s.particle_count ≠ 0 := by
      intro hc
      have := (h1 hc).2
      rw [hst] at this
      rcases this with h | h | h <;> cases h
    have hge : 3 ≤ s.explosion_radius + 6 * dt := by
      have := h2 hcnt
      linarith
    rw [update_star_nebula env s dt hst]
    split_ifs
    · exact ⟨fun hc => absurd hc hcnt, fun _ => hge⟩
    · exact ⟨fun hc => absurd hc hcnt, fun _ => hge⟩

lemma explosion_inv (env : Env) (dt d0 : ℚ) (p0 : ℕ → Particle) (hdt : 0 ≤ dt) (n : ℕ) :
    ((ticks env dt n (initStar d0 p0)).particle_count = 0 →
        (ticks env dt n (initStar d0 p0)).explosion_radius = 0 ∧
        ((ticks env dt n (initStar d0 p0)).state = .GIANT ∨
          (ticks env dt n (initStar d0 p0)).state = .COLLAPSE ∨
          (ticks env dt n (initStar d0 p0)).state = .BOUNCE)) ∧
    ((ticks env dt n (initStar d0 p0)).particle_count ≠ 0 →
        3 ≤ (ticks env dt n (initStar d0 p0)).explosion_radius) := by
  induction n with
  | zero => exact ⟨fun _ => ⟨rfl, Or.inl rfl⟩, fun hc => absurd rfl hc⟩
  | succ n ih =>
      rw [ticks_succ]
      exact explosion_inv_step env dt hdt _ ih.1 ih.2

lemma first_nonzero_step (env : Env) (s : Star) (dt : ℚ)
    (hz : s.explosion_radius = 0)
    (hstage : s.state = .GIANT ∨ s.state = .COLLAPSE ∨ s.state = .BOUNCE)
    (hstep : (update_star env s dt).explosion_radius ≠ 0) :
    s.state = .BOUNCE ∧ (update_star env s dt).state = .EXPLOSION := by
  rcases hstage with h | h | h
  · exfalso
    apply hstep
    rw [update_star_giant env s dt h]
    split_ifs <;> exact hz
  · exfalso
    apply hstep
    rw [update_star_collapse env s dt h]
    split_ifs <;> exact hz
  · by_cases hc : s.time + dt > 0.8
    · refine ⟨h, ?_⟩
      rw [update_star_bounce env s dt h, if_pos hc]
      rfl
    · exfalso
      apply hstep
      rw [update_star_bounce env s dt h, if_neg hc]
      exact hz

/-- C4 (amended): in every reachable state, as long as no spawn has
happened (particle_count = 0) the stage is GIANT, COLLAPSE or BOUNCE
and explosion_radius is exactly 0; once a spawn has happened
(particle_count nonzero) explosion_radius stays at least 3 forever, so
it is nonzero in the GIANT stage reached by the restart; and a step on
which explosion_radius moves from 0 to nonzero is exactly a BOUNCE to
EXPLOSION transition. -/
theorem C4_explosion_radius (env : Env) (dt d0 : ℚ) (p0 : ℕ → Particle)
    (hdt : 0 ≤ dt) (n : ℕ) :
    ((ticks env dt n (initStar d0 p0)).particle_count = 0 →
        (ticks env dt n (initStar d0 p0)).explosion_radius = 0 ∧
        ((ticks env dt n (initStar d0 p0)).state = .GIANT ∨
          (ticks env dt n (initStar d0 p0)).state = .COLLAPSE ∨
          (ticks env dt n (initStar d0 p0)).state = .BOUNCE)) ∧
    ((ticks env dt n (initStar d0 p0)).particle_count ≠ 0 →
        3 ≤ (ticks env dt n (initStar d0 p0)).explosion_radius) ∧
    ((ticks env dt n (initStar d0 p0)).explosion_radius = 0 →
        (ticks env dt (n + 1) (initStar d0 p0)).explosion_radius ≠ 0 →
        (ticks env dt n (initStar d0 p0)).state = .BOUNCE ∧
        (ticks env dt (n + 1) (initStar d0 p0)).state = .EXPLOSION) := by
  obtain ⟨h1, h2⟩ := explosion_inv env dt d0 p0 hdt n
  refine ⟨h1, h2, ?_⟩
  intro hz hnz
  have hcnt : (ticks env dt n (initStar d0 p0)).particle_count = 0 := by
    by_contra hc
    have := h2 hc
    rw [hz] at this
    norm_num at this
  rw [ticks_succ] at hnz ⊢
  exact first_nonzero_step env _ dt hz (h1 hcnt).2 hnz

/-- C4 witness: at tick 0 the invariant instance gives
explosion_radius = 0. -/
theorem C4_witness :
    (0 : ℚ) ≤ 1/30 ∧ (initStar (0 : ℚ) (fun _ => partZ)).explosion_radius = 0 :=
  ⟨by norm_num,
    ((C4_explosion_radius envZ (1/30) 0 (fun _ => partZ) (by norm_num) 0).1 rfl).1⟩

/-- C6: the three layers of draw_star resolve in fixed priority order:
a live particle at the cell always wins and prints the ejecta symbol,
with no live particle at the cell the core disk prints the remnant
symbol over the base layer, and in particular a cell inside the core
disk, inside the explosion shock band and under a live particle prints
the ejecta symbol. -/
theorem C6_layer_priority (env : Env) (s : Star) (x y : ℕ) :
    ((∃ i, i < s.particle_count ∧ particleHit s i x y = true) →
        draw_pixel env s x y = '+') ∧
    ((¬ ∃ i, i < s.particle_count ∧ particleHit s i x y = true) →
        sqrtLeB (cellDsq x y) s.core_radius = true → draw_pixel env s x y = 'O') ∧
    (s.state = .EXPLOSION →
        sqrtLeB (cellDsq x y) s.explosion_radius = true →
        sqrtGeB (cellDsq x y) (s.explosion_radius - 1.6) = true →
        sqrtLeB (cellDsq x y) s.core_radius = true →
        (∃ i, i < s.particle_count ∧ particleHit s i x y = true) →
        draw_pixel env s x y = '+') := by
  have hany : ((List.range s.particle_count).any (fun i => particleHit s i x y) = true) ↔
      (∃ i, i < s.particle_count ∧ particleHit s i x y = true) := by
    simp [List.any_eq_true, List.mem_range]
  refine ⟨?_, ?_, ?_⟩
  · intro hex
    unfold draw_pixel
    rw [if_pos (hany.mpr hex)]
  · intro hnex hcore
    unfold draw_pixel
    rw [if_neg (fun hc => hnex (hany.mp hc))]
    unfold coreLayer
    rw [if_pos hcore]
  · intro _ _ _ _ hex
    unfold draw_pixel
    rw [if_pos (hany.mpr hex)]

/-- C6 witness: in sC6 the center cell is inside the core disk, inside
the shock band of the explosion and under a live particle, and the
rendered symbol is the ejecta symbol. -/
theorem C6_witness : draw_pixel envZ sC6 45 16 = '+' :=
  (C6_layer_priority envZ sC6 45 16).2.2 rfl
    (by with_unfolding_all decide)
    (by with_unfolding_all decide)
    (by with_unfolding_all decide)
    ⟨0, by norm_num [sC6], by with_unfolding_all decide⟩

lemma update_star_count (env : Env) (s : Star) (dt : ℚ) :
    (update_star env s dt).particle_count = s.particle_count ∨
      ((update_star env s dt).particle_count = MAX_PARTICLES ∧ s.state = .BOUNCE) := by
  cases hst : s.state
  case GIANT => rw [update_star_giant env s dt hst]; split_ifs <;> exact Or.inl rfl
  case COLLAPSE => rw [update_star_collapse env s dt hst]; split_ifs <;> exact Or.inl rfl
  case BOUNCE =>
    rw [update_star_bounce env s dt hst]
    split_ifs
    · exact Or.inr ⟨rfl, rfl⟩
    · exact Or.inl rfl
  case EXPLOSION => rw [update_star_explosion env s dt hst]; split_ifs <;> exact Or.inl rfl
  case NEBULA => rw [update_star_nebula env s dt hst]; split_ifs <;> exact Or.inl rfl

lemma draw_pixel_no_particles (env : Env) (s : Star) (x y : ℕ)
    (h : s.particle_count = 0) : draw_pixel env s x y ≠ '+' := by
  have hfalse : (List.range s.particle_count).any (fun i => particleHit s i x y) = false := by
    rw [h]
    rfl
  unfold draw_pixel
  rw [hfalse]
  simp only [Bool.false_eq_true, if_false]
  unfold coreLayer
  split_ifs
  · decide
  · unfold baseLayer
    cases s.state <;> split_ifs <;> decide

/-- C10: particle_count of every reachable state is 0 or 450; once it
is 450 it stays 450 forever; a step changes it only by spawning at a
BOUNCE transition; while it is 0 the renderer never prints the ejecta
symbol and update_particles is the identity. -/
theorem C10_particle_count (env : Env) (dt d0 : ℚ) (p0 : ℕ → Particle) :
    (∀ n : ℕ, (ticks env dt n (initStar d0 p0)).particle_count = 0 ∨
        (ticks env dt n (initStar d0 p0)).particle_count = MAX_PARTICLES) ∧
    (∀ s : Star, s.particle_count = MAX_PARTICLES →
        (update_star env s dt).particle_count = MAX_PARTICLES) ∧
    (∀ s : Star, (update_star env s dt).particle_count = s.particle_count ∨
        ((update_star env s dt).particle_count = MAX_PARTICLES ∧ s.state = .BOUNCE)) ∧
    (∀ (s : Star) (x y : ℕ), s.particle_count = 0 → draw_pixel env s x y ≠ '+') ∧
    (∀ s : Star, s.particle_count = 0 → update_particles s dt = s) := by
  refine ⟨?_, ?_, fun s => update_star_count env s dt,
    fun s x y h => draw_pixel_no_particles env s x y h, ?_⟩
  · intro n
    induction n with
    | zero => exact Or.inl rfl
    | succ n ih =>
        rw [ticks_succ]
        rcases update_star_count env (ticks env dt n (initStar d0 p0)) dt with h | h
        · rw [h]; exact ih
        · exact Or.inr h.1
  · intro s h
    rcases update_star_count env s dt with h2 | h2
    · rw [h2]; exact h
    · exact h2.1
  · intro s h
    ext1
    case radius => rfl
    case core_radius => rfl
    case explosion_radius => rfl
    case velocity => rfl
    case time => rfl
    case density => rfl
    case state => rfl
    case particle_count => rfl
    case particles =>
      funext i
      rw [update_particles_apply, if_neg]
      rintro ⟨hi, -⟩
      rw [h] at hi
      exact Nat.not_lt_zero i hi

/-- C10 witness: the concrete initial state has no particles, renders
no ejecta symbol at the corner cell, and is fixed by update_particles. -/
theorem C10_witness :
    draw_pixel envZ (initStar 0 (fun _ => partZ)) 0 0 ≠ '+' ∧
    update_particles (initStar 0 (fun _ => partZ)) 1 = initStar 0 (fun _ => partZ) :=
  ⟨(C10_particle_count envZ 1 0 (fun _ => partZ)).2.2.2.1 _ 0 0 rfl,
   (C10_particle_count envZ 1 0 (fun _ => partZ)).2.2.2.2 _ rfl⟩

lemma giant_phase_aux (env : Env) (s : Star) (h1 : s.state = .GIANT) (h2 : s.time = 0) :
    ∀ k : ℕ, k ≤ 150 →
      (ticks env (1/30) k s).state = .GIANT ∧
      (ticks env (1/30) k s).time = (k : ℚ) / 30 ∧
      (ticks env (1/30) k s).core_radius = s.core_radius ∧
      (ticks env (1/30) k s).explosion_radius = s.explosion_radius ∧
      (ticks env (1/30) k s).velocity = s.velocity ∧
      (ticks env (1/30) k s).particle_count = s.particle_count := by
  intro k
  induction k with
  | zero =>
      intro _
      exact ⟨h1, by rw [show ticks env (1/30) 0 s = s from rfl, h2]; norm_num, rfl, rfl, rfl, rfl⟩
  | succ k ih =>
      intro hk
      obtain ⟨ha, hb', hc, hd, he, hf⟩ := ih (by omega)
      rw [ticks_succ, update_star_giant env _ _ ha]
      have hcond : ¬ ((ticks env (1/30) k s).time + 1/30 > 5) := by
        rw [hb', not_lt]
        have hle : (k : ℚ) ≤ 149 := by exact_mod_cast (by omega : k ≤ 149)
        linarith
      rw [if_neg hcond]
      refine ⟨ha, ?_, hc, hd, he, hf⟩
      show (ticks env (1/30) k s).time + 1/30 = ((k + 1 : ℕ) : ℚ) / 30
      rw [hb']
      push_cast
      ring

lemma giant_phase_exit (env : Env) (hb : ∀ x, |env.sinF x| ≤ 1) (s : Star)
    (h1 : s.state = .GIANT) (h2 : s.time = 0) :
    (ticks env (1/30) 151 s).state = .COLLAPSE ∧
    (ticks env (1/30) 151 s).time = 0 ∧
    (ticks env (1/30) 151 s).velocity = 0 ∧
    (ticks env (1/30) 151 s).radius ≤ 21/2 ∧
    (ticks env (1/30) 151 s).particle_count = s.particle_count ∧
    (ticks env (1/30) 151 s).explosion_radius = s.explosion_radius ∧
    (ticks env (1/30) 151 s).core_radius = s.core_radius := by
  obtain ⟨ha, hb', hc, hd, he, hf⟩ := giant_phase_aux env s h1 h2 150 (le_refl _)
  rw [show (151 : ℕ) = 150 + 1 from rfl, ticks_succ, update_star_giant env _ _ ha]
  have hcond : (ticks env (1/30) 150 s).time + 1/30 > 5 := by
    rw [hb']
    norm_num
  rw [if_pos hcond]
  refine ⟨rfl, rfl, rfl, ?_, hf, hd, hc⟩
  show 9 + env.sinF (((ticks env (1/30) 150 s).time + 1/30) * 3) * 1.5 ≤ 21/2
  have := abs_le.mp (hb (((ticks env (1/30) 150 s).time + 1/30) * 3))
  linarith [this.2]

lemma collapse_fire (env : Env) (s : Star) (h1 : s.state = .COLLAPSE)
    (hfire : s.radius - (s.velocity + 40 * (1/30)) * (1/30) < 3) :
    (ticks env (1/30) 1 s).state = .BOUNCE ∧
    (ticks env (1/30) 1 s).time = 0 ∧
    (ticks env (1/30) 1 s).particle_count = s.particle_count ∧
    (ticks env (1/30) 1 s).explosion_radius = s.explosion_radius ∧
    (ticks env (1/30) 1 s).core_radius = 2 := by
  have hstep : ticks env (1/30) 1 s = update_star env s (1/30) := rfl
  rw [hstep, update_star_collapse env s _ h1, if_pos hfire]
  exact ⟨rfl, rfl, rfl, rfl, rfl⟩

lemma collapse_phase (env : Env) :
    ∀ (N : ℕ) (s : Star), s.state = .COLLAPSE → 0 ≤ s.velocity →
      s.radius ≤ 3 + (N : ℚ) * (2/45) →
      ∃ n : ℕ, 1 ≤ n ∧ n ≤ N + 1 ∧
        (∀ m, m < n → (ticks env (1/30) m s).state = .COLLAPSE) ∧
        (ticks env (1/30) n s).state = .BOUNCE ∧
        (ticks env (1/30) n s).time = 0 ∧
        (ticks env (1/30) n s).particle_count = s.particle_count ∧
        (ticks env (1/30) n s).explosion_radius = s.explosion_radius ∧
        (ticks env (1/30) n s).core_radius = 2 := by
  intro N
  induction N with
  | zero =>
      intro s h1 h2 h3
      have hfire : s.radius - (s.velocity + 40 * (1/30)) * (1/30) < 3 := by
        have hpos : 0 < (s.velocity + 40 * (1/30)) * (1/30) := by
          apply mul_pos
          · linarith
          · norm_num
        push_cast at h3
        linarith
      obtain ⟨ha, hb', hc, hd, he⟩ := collapse_fire env s h1 hfire
      refine ⟨1, le_refl 1, by omega, ?_, ha, hb', hc, hd, he⟩
      intro m hm
      have : m = 0 := by omega
      subst this
      exact h1
  | succ N ih =>
      intro s h1 h2 h3
      by_cases hfire : s.radius - (s.velocity + 40 * (1/30)) * (1/30) < 3
      · obtain ⟨ha, hb', hc, hd, he⟩ := collapse_fire env s h1 hfire
        refine ⟨1, le_refl 1, by omega, ?_, ha, hb', hc, hd, he⟩
        intro m hm
        have : m = 0 := by omega
        subst this
        exact h1
      · have hu : update_star env s (1/30) =
            { s with time := s.time + 1/30,
                     velocity := s.velocity + 40 * (1/30),
                     radius := s.radius - (s.velocity + 40 * (1/30)) * (1/30) } := by
          rw [update_star_collapse env s _ h1, if_neg hfire]
        have h1' : (update_star env s (1/30)).state = .COLLAPSE := by rw [hu]; exact h1
        have h2' : 0 ≤ (update_star env s (1/30)).velocity := by
          rw [hu]
          show 0 ≤ s.velocity + 40 * (1/30)
          linarith
        have h3' : (update_star env s (1/30)).radius ≤ 3 + (N : ℚ) * (2/45) := by
          rw [hu]
          show s.radius - (s.velocity + 40 * (1/30)) * (1/30) ≤ 3 + (N : ℚ) * (2/45)
          have hdec : (2 : ℚ)/45 ≤ (s.velocity + 40 * (1/30)) * (1/30) := by nlinarith
          push_cast at h3
          linarith
        obtain ⟨n, hn1, hn2, hseg, ha, hb', hc, hd, he⟩ :=
          ih (update_star env s (1/30)) h1' h2' h3'
        have hts : ∀ j : ℕ, ticks env (1/30) (j + 1) s =
            ticks env (1/30) j (update_star env s (1/30)) := fun j => rfl
        have hrest : (update_star env s (1/30)).particle_count = s.particle_count ∧
            (update_star env s (1/30)).explosion_radius = s.explosion_radius := by
          rw [hu]
          exact ⟨rfl, rfl⟩
        refine ⟨n + 1, by omega, by omega, ?_, ?_, ?_, ?_, ?_, ?_⟩
        · intro m hm
          cases m with
          | zero => exact h1
          | succ j =>
              rw [hts j]
              exact hseg j (by omega)
        · rw [hts n]; exact ha
        · rw [hts n]; exact hb'
        · rw [hts n, hc]; exact hrest.1
        · rw [hts n, hd]; exact hrest.2
        · rw [hts n]; exact he

lemma bounce_phase (env : Env) (s : Star) (h1 : s.state = .BOUNCE) (h2 : s.time = 0) :
    (∀ m, m ≤ 24 → (ticks env (1/30) m s).state = .BOUNCE) ∧
    (ticks env (1/30) 25 s).state = .EXPLOSION ∧
    (ticks env (1/30) 25 s).time = 0 ∧
    (ticks env (1/30) 25 s).explosion_radius = 3 ∧
    (ticks env (1/30) 25 s).particle_count = MAX_PARTICLES := by
  have h08 : (0.8 : ℚ) = 4/5 := by norm_num
  have aux : ∀ k : ℕ, k ≤ 24 →
      (ticks env (1/30) k s).state = .BOUNCE ∧
      (ticks env (1/30) k s).time = (k : ℚ) / 30 := by
    intro k
    induction k with
    | zero =>
        intro _
        exact ⟨h1, by rw [show ticks env (1/30) 0 s = s from rfl, h2]; norm_num⟩
    | succ k ih =>
        intro hk
        obtain ⟨ha, hb'⟩ := ih (by omega)
        rw [ticks_succ, update_star_bounce env _ _ ha]
        have hcond : ¬ ((ticks env (1/30) k s).time + 1/30 > 0.8) := by
          rw [hb', not_lt, h08]
          have hle : (k : ℚ) ≤ 23 := by exact_mod_cast (by omega : k ≤ 23)
          linarith
        rw [if_neg hcond]
        refine ⟨ha, ?_⟩
        show (ticks env (1/30) k s).time + 1/30 = ((k + 1 : ℕ) : ℚ) / 30
        rw [hb']
        push_cast
        ring
  obtain ⟨ha, hb'⟩ := aux 24 (le_refl _)
  refine ⟨fun m hm => (aux m hm).1, ?_⟩
  rw [show (25 : ℕ) = 24 + 1 from rfl, ticks_succ, update_star_bounce env _ _ ha]
  have hcond : (ticks env (1/30) 24 s).time + 1/30 > 0.8 := by
    rw [hb', h08]
    norm_num
  rw [if_pos hcond]
  exact ⟨rfl, rfl, rfl, rfl⟩

lemma explosion_phase (env : Env) (s : Star) (h1 : s.state = .EXPLOSION)
    (h2 : s.explosion_radius = 3) :
    (∀ m, m ≤ 29 → (ticks env (1/30) m s).state = .EXPLOSION) ∧
    (ticks env (1/30) 30 s).state = .NEBULA ∧
    (ticks env (1/30) 30 s).time = 0 ∧
    (ticks env (1/30) 30 s).explosion_radius = 33 := by
  have aux : ∀ k : ℕ, k ≤ 29 →
      (ticks env (1/30) k s).state = .EXPLOSION ∧
      (ticks env (1/30) k s).explosion_radius = 3 + (k : ℚ) := by
    intro k
    induction k with
    | zero =>
        intro _
        exact ⟨h1, by rw [show ticks env (1/30) 0 s = s from rfl, h2]; norm_num⟩
    | succ k ih =>
        intro hk
        obtain ⟨ha, hb'⟩ := ih (by omega)
        rw [ticks_succ, update_star_explosion env _ _ ha]
        have hcond : ¬ ((ticks env (1/30) k s).explosion_radius + 30 * (1/30) > 32) := by
          rw [hb', not_lt]
          have hle : (k : ℚ) ≤ 28 := by exact_mod_cast (by omega : k ≤ 28)
          linarith
        rw [if_neg hcond]
        refine ⟨ha, ?_⟩
        show (ticks env (1/30) k s).explosion_radius + 30 * (1/30) = 3 + ((k + 1 : ℕ) : ℚ)
        rw [hb']
        push_cast
        ring
  obtain ⟨ha, hb'⟩ := aux 29 (le_refl _)
  refine ⟨fun m hm => (aux m hm).1, ?_⟩
  rw [show (30 : ℕ) = 29 + 1 from rfl, ticks_succ, update_star_explosion env _ _ ha]
  have hcond : (ticks env (1/30) 29 s).explosion_radius + 30 * (1/30) > 32 := by
    rw [hb']
    norm_num
  rw [if_pos hcond]
  refine ⟨rfl, rfl, ?_⟩
  show (ticks env (1/30) 29 s).explosion_radius + 30 * (1/30) = 33
  rw [hb']
  norm_num

lemma nebula_phase (env : Env) (s : Star) (h1 : s.state = .NEBULA)
    (h2 : s.explosion_radius = 33) :
    (∀ m, m ≤ 45 → (ticks env (1/30) m s).state = .NEBULA) ∧
    (ticks env (1/30) 46 s).state = .GIANT ∧
    (ticks env (1/30) 46 s).time = 0 ∧
    (ticks env (1/30) 46 s).radius = 9 := by
  have aux : ∀ k : ℕ, k ≤ 45 →
      (ticks env (1/30) k s).state = .NEBULA ∧
      (ticks env (1/30) k s).explosion_radius = 33 + (k : ℚ) / 5 := by
    intro k
    induction k with
    | zero =>
        intro _
        exact ⟨h1, by rw [show ticks env (1/30) 0 s = s from rfl, h2]; norm_num⟩
    | succ k ih =>
        intro hk
        obtain ⟨ha, hb'⟩ := ih (by omega)
        rw [ticks_succ, update_star_nebula env _ _ ha]
        have hcond : ¬ ((ticks env (1/30) k s).explosion_radius + 6 * (1/30) > 42) := by
          rw [hb', not_lt]
          have hle : (k : ℚ) ≤ 44 := by exact_mod_cast (by omega : k ≤ 44)
          linarith
        rw [if_neg hcond]
        refine ⟨ha, ?_⟩
        show (ticks env (1/30) k s).explosion_radius + 6 * (1/30) = 33 + ((k + 1 : ℕ) : ℚ) / 5
        rw [hb']
        push_cast
        ring
  obtain ⟨ha, hb'⟩ := aux 45 (le_refl _)
  refine ⟨fun m hm => (aux m hm).1, ?_⟩
  rw [show (46 : ℕ) = 45 + 1 from rfl, ticks_succ, update_star_nebula env _ _ ha]
  have hcond : (ticks env (1/30) 45 s).explosion_radius + 6 * (1/30) > 42 := by
    rw [hb']
    norm_num
  rw [if_pos hcond]
  exact ⟨rfl, rfl, rfl⟩

lemma update_star_state_cases (env : Env) (s : Star) (dt : ℚ) :
    (update_star env s dt).state = s.state ∨
      (update_star env s dt).state = nextStage s.state := by
  cases hst : s.state
  case GIANT =>
    rw [update_star_giant env s dt hst]
    split_ifs
    · exact Or.inr rfl
    · exact Or.inl hst
  case COLLAPSE =>
    rw [update_star_collapse env s dt hst]
    split_ifs
    · exact Or.inr rfl
    · exact Or.inl hst
  case BOUNCE =>
    rw [update_star_bounce env s dt hst]
    split_ifs
    · exact Or.inr rfl
    · exact Or.inl hst
  case EXPLOSION =>
    rw [update_star_explosion env s dt hst]
    split_ifs
    · exact Or.inr rfl
    · exact Or.inl hst
  case NEBULA =>
    rw [update_star_nebula env s dt hst]
    split_ifs
    · exact Or.inr rfl
    · exact Or.inl hst

/-- C9: from the initial configuration, with dt = 1/30, the run visits
the stages in exactly the order GIANT, COLLAPSE, BOUNCE, EXPLOSION,
NEBULA as contiguous segments and after finitely many ticks (n5) is
back in GIANT with radius = 9 and time = 0; moreover no step of
update_star can move the stage anywhere except to its cyclic successor,
so no other order of transitions is possible.  The only assumption is
that the sin approximation is bounded by 1 in absolute value. -/
theorem C9_cycle_closure (env : Env) (d0 : ℚ) (p0 : ℕ → Particle)
    (hb : ∀ x, |env.sinF x| ≤ 1) :
    (∀ (s : Star) (dt : ℚ), (update_star env s dt).state = s.state ∨
        (update_star env s dt).state = nextStage s.state) ∧
    (initStar d0 p0).state = .GIANT ∧
    ∃ n1 n2 n3 n4 n5 : ℕ, 0 < n1 ∧ n1 < n2 ∧ n2 < n3 ∧ n3 < n4 ∧ n4 < n5 ∧
      (∀ m, m < n1 → (ticks env (1/30) m (initStar d0 p0)).state = .GIANT) ∧
      (∀ m, n1 ≤ m → m < n2 → (ticks env (1/30) m (initStar d0 p0)).state = .COLLAPSE) ∧
      (∀ m, n2 ≤ m → m < n3 → (ticks env (1/30) m (initStar d0 p0)).state = .BOUNCE) ∧
      (∀ m, n3 ≤ m → m < n4 → (ticks env (1/30) m (initStar d0 p0)).state = .EXPLOSION) ∧
      (∀ m, n4 ≤ m → m < n5 → (ticks env (1/30) m (initStar d0 p0)).state = .NEBULA) ∧
      (ticks env (1/30) n5 (initStar d0 p0)).state = .GIANT ∧
      (ticks env (1/30) n5 (initStar d0 p0)).radius = 9 ∧
      (ticks env (1/30) n5 (initStar d0 p0)).time = 0 := by
  refine ⟨fun s dt => update_star_state_cases env s dt, rfl, ?_⟩
  have hGseg := giant_phase_aux env (initStar d0 p0) rfl rfl
  obtain ⟨hC1, hC2, hC3, hC4, hC5, hC6, hC7⟩ :=
    giant_phase_exit env hb (initStar d0 p0) rfl rfl
  obtain ⟨K, hK1, hK2, hKseg, hK3, hK4, hK5, hK6, hK7⟩ :=
    collapse_phase env 169 (ticks env (1/30) 151 (initStar d0 p0)) hC1
      (le_of_eq hC3.symm)
      (by push_cast; linarith)
  obtain ⟨hBseg, hB1, hB2, hB3, hB4⟩ :=
    bounce_phase env (ticks env (1/30) K (ticks env (1/30) 151 (initStar d0 p0))) hK3 hK4
  obtain ⟨hEseg, hE1, hE2, hE3⟩ :=
    explosion_phase env
      (ticks env (1/30) 25 (ticks env (1/30) K (ticks env (1/30) 151 (initStar d0 p0))))
      hB1 hB3
  obtain ⟨hNseg, hN1, hN2, hN3⟩ :=
    nebula_phase env
      (ticks env (1/30) 30 (ticks env (1/30) 25
        (ticks env (1/30) K (ticks env (1/30) 151 (initStar d0 p0)))))
      hE1 hE3
  refine ⟨151, 151 + K, 151 + K + 25, 151 + K + 25 + 30, 151 + K + 25 + 30 + 46,
    by omega, by omega, by omega, by omega, by omega, ?_, ?_, ?_, ?_, ?_, ?_, ?_, ?_⟩
  · intro m hm
    exact (hGseg m (by omega)).1
  · intro m hm1 hm2
    obtain ⟨j, rfl⟩ : ∃ j, m = 151 + j := ⟨m - 151, by omega⟩
    rw [ticks_add env (1/30) 151 j]
    exact hKseg j (by omega)
  · intro m hm1 hm2
    obtain ⟨j, rfl⟩ : ∃ j, m = 151 + K + j := ⟨m - (151 + K), by omega⟩
    rw [ticks_add env (1/30) (151 + K) j, ticks_add env (1/30) 151 K]
    exact hBseg j (by omega)
  · intro m hm1 hm2
    obtain ⟨j, rfl⟩ : ∃ j, m = 151 + K + 25 + j := ⟨m - (151 + K + 25), by omega⟩
    rw [ticks_add env (1/30) (151 + K + 25) j, ticks_add env (1/30) (151 + K) 25,
        ticks_add env (1/30) 151 K]
    exact hEseg j (by omega)
  · intro m hm1 hm2
    obtain ⟨j, rfl⟩ : ∃ j, m = 151 + K + 25 + 30 + j := ⟨m - (151 + K + 25 + 30), by omega⟩
    rw [ticks_add env (1/30) (151 + K + 25 + 30) j, ticks_add env (1/30) (151 + K + 25) 30,
        ticks_add env (1/30) (151 + K) 25, ticks_add env (1/30) 151 K]
    exact hNseg j (by omega)
  · rw [ticks_add env (1/30) (151 + K + 25 + 30) 46, ticks_add env (1/30) (151 + K + 25) 30,
        ticks_add env (1/30) (151 + K) 25, ticks_add env (1/30) 151 K]
    exact hN1
  · rw [ticks_add env (1/30) (151 + K + 25 + 30) 46, ticks_add env (1/30) (151 + K + 25) 30,
        ticks_add env (1/30) (151 + K) 25, ticks_add env (1/30) 151 K]
    exact hN3
  · rw [ticks_add env (1/30) (151 + K + 25 + 30) 46, ticks_add env (1/30) (151 + K + 25) 30,
        ticks_add env (1/30) (151 + K) 25, ticks_add env (1/30) 151 K]
    exact hN2

/-- C9 witness: the successor fact of the cycle theorem instantiated in
the concrete environment envZ at the concrete initial state. -/
theorem C9_witness :
    (update_star envZ initZ 1).state = initZ.state ∨
      (update_star envZ initZ 1).state = nextStage initZ.state :=
  (C9_cycle_closure envZ 0 (fun _ => partZ)
    (fun x => by norm_num [envZ])).1 initZ 1

end Supernova
